import Mathlib

/-!
Verification of the asynchronous task coordinator of the brewsty package-manager
front end, shallowly embedded from
`src/presentation/services/async_task_manager.rs`,
`src/presentation/ui/app.rs` (the enrichment request / replenishment paths) and
`src/domain/entities/package.rs`.

Modelling conventions:
* `Arc<Mutex<T>>` result cells are modelled by their current content stored
  inside the task value; whether a `try_lock` succeeds at a given poll is an
  environment choice, supplied to `poll` as an oracle (`Nat → Bool` for the
  enrichment tasks, `Nat → LockObs` for the singleton tasks, both indexed by
  the task's position in the iteration order of the Rust loop).
* Background workers writing a cell are modelled as explicit environment
  transitions (`writeEnrichmentResult`) that fill a still-empty cell.
* `std::time::Instant` is modelled as a `Nat` time stamp in seconds; the Rust
  timeout test `started_at.elapsed() > Duration::from_secs(10)` becomes
  `now - started_at > 10`.
* Rust `usize` subtraction (`15 - pending_loads_count()` in
  `App::poll_async_tasks`) is modelled with release-mode wrapping semantics
  (`usizeSub`); in the traces below the subtrahend never exceeds 15, so the
  wrap never actually fires and debug builds would behave identically there.
* `HashSet<String>` is modelled as a duplicate-free `List String`
  (`hsInsert` inserts only when absent, `hsRemove` erases).
-/

set_option maxRecDepth 16000

namespace Brewsty

/-- PackageType from `domain/entities/package.rs`. -/
inductive PackageType
| Formula
| Cask
deriving DecidableEq

/-- Package from `domain/entities/package.rs`. -/
structure Package where
  name : String
  version : Option String
  available_version : Option String
  description : Option String
  package_type : PackageType
  installed : Bool
  outdated : Bool
  version_load_failed : Bool
deriving DecidableEq

/-- `Package::new` from `domain/entities/package.rs`. -/
def Package.new (name : String) (package_type : PackageType) : Package :=
  { name := name
    version := none
    available_version := none
    description := none
    package_type := package_type
    installed := false
    outdated := false
    version_load_failed := false }

/-- `Package::with_version` from `domain/entities/package.rs`. -/
def Package.with_version (p : Package) (version : String) : Package :=
  { p with version := some version }

/-- `Package::set_version_load_failed` from `domain/entities/package.rs`. -/
def Package.set_version_load_failed (p : Package) (failed : Bool) : Package :=
  { p with version_load_failed := failed }

/-- The `AsyncTask` enum from `async_task_manager.rs`.  Each `Arc<Mutex<..>>`
cell is replaced by its current content. -/
inductive AsyncTask
| LoadInstalled (packages : List Package) (logs : List String)
| LoadOutdated (packages : List Package) (logs : List String)
| Search (results : List Package) (logs : List String)
| LoadPackageInfo (package_name : String) (package_type : PackageType)
    (result : Option Package) (started_at : Nat)
| Install (success : Option Bool) (logs : List String) (message : String)
| Uninstall (success : Option Bool) (logs : List String) (message : String)
| Update (success : Option Bool) (logs : List String) (message : String)
| UpdateAll (success : Option Bool) (logs : List String) (message : String)
| CleanCache (success : Option Bool) (logs : List String) (message : String)
| CleanupOldVersions (success : Option Bool) (logs : List String) (message : String)
| Pin (package_name : String) (success : Option Bool) (logs : List String) (message : String)
| Unpin (package_name : String) (success : Option Bool) (logs : List String) (message : String)
deriving DecidableEq

/-- The `TaskResult` struct from `async_task_manager.rs`. -/
structure TaskResult where
  installed_packages : Option (List Package)
  outdated_packages : Option (List Package)
  search_results : Option (List Package)
  package_info : Option (String × Package)
  logs : List String
  completed_package_info_loads : List String
  install_completed : Option (Bool × String)
  uninstall_completed : Option (Bool × String)
  update_completed : Option (Bool × String)
  update_all_completed : Option (Bool × String)
  clean_cache_completed : Option (Bool × String)
  cleanup_old_versions_completed : Option (Bool × String)
  pin_completed : Option (String × Bool × String)
  unpin_completed : Option (String × Bool × String)
deriving DecidableEq

/-- The all-empty `TaskResult` that `poll` constructs at its start. -/
def TaskResult.empty : TaskResult :=
  { installed_packages := none
    outdated_packages := none
    search_results := none
    package_info := none
    logs := []
    completed_package_info_loads := []
    install_completed := none
    uninstall_completed := none
    update_completed := none
    update_all_completed := none
    clean_cache_completed := none
    cleanup_old_versions_completed := none
    pin_completed := none
    unpin_completed := none }

/-- The `AsyncTaskManager` struct from `async_task_manager.rs`. -/
structure AsyncTaskManager where
  active_tasks : List AsyncTask
  package_info_tasks : List (String × AsyncTask)
  packages_loading_info : List String
  pending_package_info_loads : List (String × PackageType)
deriving DecidableEq

/-- `AsyncTaskManager::new`. -/
def AsyncTaskManager.new : AsyncTaskManager :=
  { active_tasks := []
    package_info_tasks := []
    packages_loading_info := []
    pending_package_info_loads := [] }

/-- HashSet insertion (no duplicate is ever added). -/
def hsInsert (s : List String) (x : String) : List String :=
  if x ∈ s then s else s ++ [x]

/-- HashSet removal. -/
def hsRemove (s : List String) (x : String) : List String :=
  s.erase x

/-- The `task_type` string computed at the top of
`AsyncTaskManager::set_active_task`: only the three list/search kinds have a
non-empty type, every other variant maps to the empty string. -/
def AsyncTaskManager.taskType : AsyncTask → String
| .LoadInstalled _ _ => "LoadInstalled"
| .LoadOutdated _ _ => "LoadOutdated"
| .Search _ _ => "Search"
| _ => ""

/-- `AsyncTaskManager::has_task_type`. -/
def AsyncTaskManager.has_task_type (m : AsyncTaskManager) (task_type : String) : Bool :=
  m.active_tasks.any fun task =>
    match task, task_type with
    | .LoadInstalled _ _, "LoadInstalled" => true
    | .LoadOutdated _ _, "LoadOutdated" => true
    | .Search _ _, "Search" => true
    | _, _ => false

/-- `AsyncTaskManager::set_active_task`: duplicate submissions are dropped
only when the computed `task_type` is non-empty (list loads and search). -/
def AsyncTaskManager.set_active_task (m : AsyncTaskManager) (task : AsyncTask) : AsyncTaskManager :=
  let task_type := AsyncTaskManager.taskType task
  if task_type != "" && m.has_task_type task_type then m
  else { m with active_tasks := m.active_tasks ++ [task] }

/-- `AsyncTaskManager::add_package_info_task`. -/
def AsyncTaskManager.add_package_info_task (m : AsyncTaskManager)
    (package_name : String) (task : AsyncTask) : AsyncTaskManager :=
  { m with
    packages_loading_info := hsInsert m.packages_loading_info package_name
    package_info_tasks := m.package_info_tasks ++ [(package_name, task)] }

/-- `AsyncTaskManager::is_loading_package_info`. -/
def AsyncTaskManager.is_loading_package_info (m : AsyncTaskManager) (package_name : String) : Bool :=
  m.packages_loading_info.contains package_name

/-- `AsyncTaskManager::queue_package_info_load`. -/
def AsyncTaskManager.queue_package_info_load (m : AsyncTaskManager)
    (package_name : String) (package_type : PackageType) : AsyncTaskManager :=
  if m.packages_loading_info.contains package_name then m
  else if m.pending_package_info_loads.any fun p => p.1 == package_name then m
  else { m with pending_package_info_loads := m.pending_package_info_loads ++ [(package_name, package_type)] }

/-- `AsyncTaskManager::can_load_more_package_info`. -/
def AsyncTaskManager.can_load_more_package_info (m : AsyncTaskManager) : Bool :=
  m.packages_loading_info.length < 15

/-- `AsyncTaskManager::drain_pending_loads`: Rust
`drain(..count.min(len)).collect()` removes and returns the prefix of length
`min count len`. -/
def AsyncTaskManager.drain_pending_loads (m : AsyncTaskManager) (count : Nat) :
    List (String × PackageType) × AsyncTaskManager :=
  let k := min count m.pending_package_info_loads.length
  (m.pending_package_info_loads.take k,
   { m with pending_package_info_loads := m.pending_package_info_loads.drop k })

/-- `AsyncTaskManager::pending_loads_count`. -/
def AsyncTaskManager.pending_loads_count (m : AsyncTaskManager) : Nat :=
  m.pending_package_info_loads.length

/-- Which `try_lock` calls of one singleton task succeed at this poll:
`lock1` is the first cell locked by the branch (logs for the list loads,
results for Search, success for the mutation kinds), `lock2` the second
(packages / logs), `lock3` the third (message, mutation kinds only). -/
structure LockObs where
  lock1 : Bool
  lock2 : Bool
  lock3 : Bool
deriving DecidableEq

/-- Lock oracle in which every acquisition succeeds. -/
def LockObs.all : LockObs := { lock1 := true, lock2 := true, lock3 := true }

/-- One iteration of the first loop of `AsyncTaskManager::poll` (the
enrichment loop over `package_info_tasks`), processing the whole list while
threading the `TaskResult`, the `tasks_to_keep` vector and
`packages_loading_info`.  `obs i` tells whether `try_lock` on task `i`'s
result cell succeeds. -/
def pollPkgInfoAux (now : Nat) (obs : Nat → Bool) :
    Nat → List (String × AsyncTask) → TaskResult → List String →
    TaskResult × List (String × AsyncTask) × List String
| _, [], res, loading => (res, [], loading)
| i, (pkg_name, task) :: rest, res, loading =>
  match task with
  | .LoadPackageInfo package_name package_type pkg_result started_at =>
    if now - started_at > 10 then
      let failed_package := (Package.new package_name package_type).set_version_load_failed true
      let res1 := { res with
        package_info := some (package_name, failed_package)
        completed_package_info_loads := res.completed_package_info_loads ++ [package_name] }
      pollPkgInfoAux now obs (i + 1) rest res1 (hsRemove loading package_name)
    else
      if obs i then
        match pkg_result with
        | some package =>
          let res1 := { res with
            package_info := some (package_name, package)
            completed_package_info_loads := res.completed_package_info_loads ++ [package_name] }
          pollPkgInfoAux now obs (i + 1) rest res1 (hsRemove loading package_name)
        | none =>
          let rec1 := pollPkgInfoAux now obs (i + 1) rest res loading
          (rec1.1, (pkg_name, .LoadPackageInfo package_name package_type pkg_result started_at) :: rec1.2.1, rec1.2.2)
      else
        let rec1 := pollPkgInfoAux now obs (i + 1) rest res loading
        (rec1.1, (pkg_name, .LoadPackageInfo package_name package_type pkg_result started_at) :: rec1.2.1, rec1.2.2)
  | _ => pollPkgInfoAux now obs (i + 1) rest res loading

/-- One iteration of the second loop of `AsyncTaskManager::poll` (over
`active_tasks`): returns the updated `TaskResult` and `should_put_back`. -/
def pollSingleton (task : AsyncTask) (obs : LockObs) (res : TaskResult) : TaskResult × Bool :=
  match task with
  | .LoadInstalled packages logs =>
    if obs.lock1 then
      if logs != [] then
        if obs.lock2 then
          ({ res with installed_packages := some packages, logs := res.logs ++ logs }, false)
        else (res, true)
      else (res, true)
    else (res, true)
  | .LoadOutdated packages logs =>
    if obs.lock1 then
      if logs != [] then
        if obs.lock2 then
          ({ res with outdated_packages := some packages, logs := res.logs ++ logs }, false)
        else (res, true)
      else (res, true)
    else (res, true)
  | .Search results logs =>
    if obs.lock1 then
      if obs.lock2 then
        if logs != [] then
          ({ res with search_results := some results, logs := res.logs ++ logs }, false)
        else (res, true)
      else (res, true)
    else (res, true)
  | .Install success logs message =>
    if obs.lock1 then
      match success with
      | some succeeded =>
        if obs.lock2 && obs.lock3 then
          ({ res with install_completed := some (succeeded, message), logs := res.logs ++ logs }, false)
        else (res, true)
      | none => (res, true)
    else (res, true)
  | .Uninstall success logs message =>
    if obs.lock1 then
      match success with
      | some succeeded =>
        if obs.lock2 && obs.lock3 then
          ({ res with uninstall_completed := some (succeeded, message), logs := res.logs ++ logs }, false)
        else (res, true)
      | none => (res, true)
    else (res, true)
  | .Update success logs message =>
    if obs.lock1 then
      match success with
      | some succeeded =>
        if obs.lock2 && obs.lock3 then
          ({ res with update_completed := some (succeeded, message), logs := res.logs ++ logs }, false)
        else (res, true)
      | none => (res, true)
    else (res, true)
  | .UpdateAll success logs message =>
    if obs.lock1 then
      match success with
      | some succeeded =>
        if obs.lock2 && obs.lock3 then
          ({ res with update_all_completed := some (succeeded, message), logs := res.logs ++ logs }, false)
        else (res, true)
      | none => (res, true)
    else (res, true)
  | .CleanCache success logs message =>
    if obs.lock1 then
      match success with
      | some succeeded =>
        if obs.lock2 && obs.lock3 then
          ({ res with clean_cache_completed := some (succeeded, message), logs := res.logs ++ logs }, false)
        else (res, true)
      | none => (res, true)
    else (res, true)
  | .CleanupOldVersions success logs message =>
    if obs.lock1 then
      match success with
      | some succeeded =>
        if obs.lock2 && obs.lock3 then
          ({ res with cleanup_old_versions_completed := some (succeeded, message), logs := res.logs ++ logs }, false)
        else (res, true)
      | none => (res, true)
    else (res, true)
  | .Pin package_name success logs message =>
    if obs.lock1 then
      match success with
      | some succeeded =>
        if obs.lock2 && obs.lock3 then
          ({ res with pin_completed := some (package_name, succeeded, message), logs := res.logs ++ logs }, false)
        else (res, true)
      | none => (res, true)
    else (res, true)
  | .Unpin package_name success logs message =>
    if obs.lock1 then
      match success with
      | some succeeded =>
        if obs.lock2 && obs.lock3 then
          ({ res with unpin_completed := some (package_name, succeeded, message), logs := res.logs ++ logs }, false)
        else (res, true)
      | none => (res, true)
    else (res, true)
  | .LoadPackageInfo _ _ _ _ => (res, false)

/-- The second loop of `poll` over the drained `active_tasks`, rebuilding
`active_tasks_to_keep` in order. -/
def pollActiveAux (obs : Nat → LockObs) :
    Nat → List AsyncTask → TaskResult → TaskResult × List AsyncTask
| _, [], res => (res, [])
| i, task :: rest, res =>
  let step := pollSingleton task (obs i) res
  let rec1 := pollActiveAux obs (i + 1) rest step.1
  (rec1.1, if step.2 then task :: rec1.2 else rec1.2)

/-- `AsyncTaskManager::poll`: the enrichment loop first, then the singleton
loop, returning the frame's `TaskResult` and the updated manager. -/
def AsyncTaskManager.poll (m : AsyncTaskManager) (now : Nat)
    (obsP : Nat → Bool) (obsA : Nat → LockObs) : TaskResult × AsyncTaskManager :=
  let phase1 := pollPkgInfoAux now obsP 0 m.package_info_tasks TaskResult.empty m.packages_loading_info
  let phase2 := pollActiveAux obsA 0 m.active_tasks phase1.1
  (phase2.1,
   { m with
     package_info_tasks := phase1.2.1
     packages_loading_info := phase1.2.2
     active_tasks := phase2.2 })

/-- Release-mode Rust `usize` subtraction (wrapping on underflow), used to
model `15 - self.task_manager.pending_loads_count()` at `app.rs:1853`. -/
def usizeSub (a b : Nat) : Nat :=
  (a + 2 ^ 64 - b) % 2 ^ 64

/-- The slice of `App` state (from `presentation/ui/app.rs`) that the
enrichment claims touch.  `launched` is a ghost trace recording, in order,
every package name for which `load_package_info_immediate` reached
`executor.spawn` (one entry per actual launch of a background lookup). -/
structure App where
  task_manager : AsyncTaskManager
  launched : List String
deriving DecidableEq

/-- The app state at startup: a fresh manager and no launches. -/
def App.empty : App :=
  { task_manager := AsyncTaskManager.new, launched := [] }

/-- `App::load_package_info_immediate` (app.rs:1557): skips when the name is
already in `packages_loading_info`, otherwise registers a fresh
`LoadPackageInfo` task (empty result cell, `started_at := now`) and spawns
the lookup. -/
def App.load_package_info_immediate (app : App) (package_name : String)
    (package_type : PackageType) (now : Nat) : App :=
  if app.task_manager.is_loading_package_info package_name then app
  else
    { task_manager := app.task_manager.add_package_info_task package_name
        (AsyncTask.LoadPackageInfo package_name package_type none now)
      launched := app.launched ++ [package_name] }

/-- `App::load_package_info` (app.rs:1548): launch immediately while under
the cap, queue otherwise. -/
def App.load_package_info (app : App) (package_name : String)
    (package_type : PackageType) (now : Nat) : App :=
  if app.task_manager.can_load_more_package_info then
    app.load_package_info_immediate package_name package_type now
  else
    { app with task_manager := app.task_manager.queue_package_info_load package_name package_type }

/-- Environment transition: the background lookup spawned for `name`
finishes and writes `package` into its still-empty result cell (write-once:
an already written cell is left alone). -/
def writeEnrichmentResult (m : AsyncTaskManager) (name : String) (package : Package) : AsyncTaskManager :=
  { m with package_info_tasks := m.package_info_tasks.map fun e =>
      match e.2 with
      | .LoadPackageInfo pn pt none s =>
        if pn == name then (e.1, .LoadPackageInfo pn pt (some package) s) else e
      | _ => e }

/-- `writeEnrichmentResult` lifted to the app state. -/
def App.writeResult (app : App) (name : String) (package : Package) : App :=
  { app with task_manager := writeEnrichmentResult app.task_manager name package }

/-- `App::poll_async_tasks` (app.rs, poll plus the per-frame replenishment at
lines 1850-1867): after `poll`, when `can_load_more_package_info` holds and
the pending queue is non-empty, the code drains
`15 - pending_loads_count()` entries (sic: the pending count, not the
in-flight count) and launches each immediately. -/
def App.poll_async_tasks (app : App) (now : Nat)
    (obsP : Nat → Bool) (obsA : Nat → LockObs) : TaskResult × App :=
  let polled := app.task_manager.poll now obsP obsA
  let tm := polled.2
  let app1 : App := { app with task_manager := tm }
  let app2 :=
    if tm.can_load_more_package_info && tm.pending_loads_count != 0 then
      let to_load := usizeSub 15 tm.pending_loads_count
      let drained := tm.drain_pending_loads to_load
      drained.1.foldl
        (fun a p => a.load_package_info_immediate p.1 p.2 now)
        { app1 with task_manager := drained.2 }
    else app1
  (polled.1, app2)

/-- Enrichment lock oracle: every `try_lock` on a result cell succeeds. -/
def obsTrueP : Nat → Bool := fun _ => true

/-- Enrichment lock oracle: every `try_lock` on a result cell fails (the
writer holds the guard for the whole frame). -/
def obsFalseP : Nat → Bool := fun _ => false

/-- Singleton lock oracle: every acquisition succeeds. -/
def obsAllA : Nat → LockObs := fun _ => LockObs.all

/-- A manager whose only outstanding work is one enrichment task with an
empty (still unwritten) result cell. -/
def singleEnrichment (n : String) (pt : PackageType) (s : Nat) : AsyncTaskManager :=
  { active_tasks := []
    package_info_tasks := [(n, AsyncTask.LoadPackageInfo n pt none s)]
    packages_loading_info := [n]
    pending_package_info_loads := [] }

/-- A manager whose only outstanding work is one enrichment task whose
result cell has already been written with `p`. -/
def singleEnrichmentW (n : String) (pt : PackageType) (p : Package) (s : Nat) : AsyncTaskManager :=
  { active_tasks := []
    package_info_tasks := [(n, AsyncTask.LoadPackageInfo n pt (some p) s)]
    packages_loading_info := [n]
    pending_package_info_loads := [] }

/-- A manager with two in-flight enrichment tasks, both with written result
cells. -/
def twoEnrichment (n1 n2 : String) (pt : PackageType) (p1 p2 : Package)
    (s1 s2 : Nat) : AsyncTaskManager :=
  { active_tasks := []
    package_info_tasks :=
      [(n1, AsyncTask.LoadPackageInfo n1 pt (some p1) s1),
       (n2, AsyncTask.LoadPackageInfo n2 pt (some p2) s2)]
    packages_loading_info := [n1, n2]
    pending_package_info_loads := [] }

/-- Seventeen distinct package names, requested in this order in the C1
trace. -/
def seventeenNames : List String :=
  ["a", "b", "c", "d", "e", "f", "g", "h", "i", "j", "k", "l", "m", "n", "o", "p", "q"]

/-- C1 trace, step 1: seventeen distinct enrichment requests at time 0.  The
first fifteen are launched immediately, "p" and "q" are queued. -/
def c1Requested : App :=
  seventeenNames.foldl (fun a n => a.load_package_info n PackageType.Formula 0) App.empty

/-- C1 trace, step 2: the background lookup for "a" finishes. -/
def c1Written : App :=
  c1Requested.writeResult "a" (Package.new "a" PackageType.Formula)

/-- C1 trace, step 3: the next frame's `poll_async_tasks` at time 1, all
locks available.  "a" completes, then the replenishment drains
`15 - pending_loads_count()` = 13 slots worth from a 2-element queue and
launches both, pushing the in-flight set to 16. -/
def c1Final : App :=
  (c1Written.poll_async_tasks 1 obsTrueP obsAllA).2

/-- Twenty-five distinct package names for the C6/C7 trace. -/
def twentyFiveNames : List String :=
  ["a", "b", "c", "d", "e", "f", "g", "h", "i", "j", "k", "l", "m",
   "n", "o", "p", "q", "r", "s", "t", "u", "v", "w", "x", "y"]

/-- The thirteen of the first fifteen requests whose lookups finish before
the first frame in the C6/C7 trace. -/
def thirteenDone : List String :=
  ["a", "b", "c", "d", "e", "f", "g", "h", "i", "j", "k", "l", "m"]

/-- C6 trace, step 1: twenty-five requests at time 0 ("a".."o" in flight,
"p".."y" pending). -/
def c6Requested : App :=
  twentyFiveNames.foldl (fun a n => a.load_package_info n PackageType.Formula 0) App.empty

/-- C6 trace, step 2: thirteen of the in-flight lookups finish. -/
def c6Written : App :=
  thirteenDone.foldl (fun a n => a.writeResult n (Package.new n PackageType.Formula)) c6Requested

/-- C6 trace, step 3: `poll_async_tasks` at time 1.  The thirteen completed
tasks leave the in-flight set (now {"n","o"}); the replenishment drains
`15 - pending_loads_count()` = 5 entries ("p".."t"), leaving the in-flight
set at 7 with "u".."y" still pending. -/
def c6Polled : App :=
  (c6Written.poll_async_tasks 1 obsTrueP obsAllA).2

/-- C6 trace, step 4: a fresh user request for "u" at time 2 while "u" is
still pending.  `load_package_info` sees spare capacity and calls
`load_package_info_immediate`, which checks only the in-flight set, so "u"
is launched while its queue entry survives: "u" is now in both sets. -/
def c6Final : App :=
  c6Polled.load_package_info "u" PackageType.Formula 2

/-- C7 trace, step 5: the first launch of "u" finishes. -/
def c7Written : App :=
  c6Final.writeResult "u" (Package.new "u" PackageType.Formula)

/-- C7 trace, step 6: `poll_async_tasks` at time 3 delivers "u"'s first
result and removes it from the in-flight set; the replenishment then drains
the whole pending queue, re-encounters "u"'s stale queue entry and launches
it a second time. -/
def c7Final : App :=
  (c7Written.poll_async_tasks 3 obsTrueP obsAllA).2

/-- The enrichment task of the C9 counterexample: its lookup has already
written a real result (version "1.0") at some point before time 9. -/
def c9Package : Package :=
  (Package.new "z" PackageType.Formula).with_version "1.0"

/-- C9 trace: manager holding the single written-but-unread enrichment
task, started at time 0. -/
def c9M0 : AsyncTaskManager :=
  singleEnrichmentW "z" PackageType.Formula c9Package 0

/-- C9 trace: the poll at time 9 finds the cell lock held by the writer and
keeps the task. -/
def c9M1 : AsyncTaskManager :=
  (c9M0.poll 9 obsFalseP obsAllA).2

/-- Manager of the C4 counterexample: one completed Install task whose
worker wrote the success flag and message but pushed no log line. -/
def c4Manager : AsyncTaskManager :=
  { active_tasks := [AsyncTask.Install (some true) [] "install done"]
    package_info_tasks := []
    packages_loading_info := []
    pending_package_info_loads := [] }

/-- First Install submission of the C2 counterexample. -/
def c2First : AsyncTask := AsyncTask.Install none [] ""

/-- Second Install submission of the C2 counterexample, issued while the
first is still outstanding. -/
def c2Second : AsyncTask := AsyncTask.Install none [] ""

/-- Manager of the C2 counterexample after the first Install submission. -/
def c2M : AsyncTaskManager :=
  AsyncTaskManager.new.set_active_task c2First

/-- A manager with a LoadInstalled task outstanding (used to witness the
dedup of the list/search kinds). -/
def c2MList : AsyncTaskManager :=
  AsyncTaskManager.new.set_active_task (AsyncTask.LoadInstalled [] [])

/-- Written detail of item "a" in the C3 counterexample. -/
def c3Pa : Package := (Package.new "a" PackageType.Formula).with_version "1.0"

/-- Written detail of item "b" in the C3 counterexample. -/
def c3Pb : Package := (Package.new "b" PackageType.Formula).with_version "2.0"

/-- Manager of the C3 counterexample: two in-flight enrichment tasks whose
result cells are both already written when `poll` runs. -/
def c3M : AsyncTaskManager :=
  twoEnrichment "a" "b" PackageType.Formula c3Pa c3Pb 0 0

/-- Two Install tasks submitted back to back through `set_active_task`;
since mutation kinds are not deduplicated, both become outstanding. -/
def twoInstalls (b1 b2 : Bool) (l1 l2 : List String) (m1 m2 : String) : AsyncTaskManager :=
  (AsyncTaskManager.new.set_active_task (AsyncTask.Install (some b1) l1 m1)).set_active_task
    (AsyncTask.Install (some b2) l2 m2)

/-- Claim C1: the size of the in-flight enrichment set never exceeds
MaxConcurrent = 15 under requests, polls and per-frame replenishments.
Refuted on the code: after seventeen requests, one completion and one
`poll_async_tasks` frame, the replenishment at app.rs:1853 (which computes
the batch size as `15 - pending_loads_count()` instead of topping up from
the in-flight count) launches both queued items on top of fourteen still in
flight, so the in-flight set reaches 16. -/
theorem c1_bound_exceeded :
    c1Final.task_manager.packages_loading_info.length = 16 ∧
    ¬ c1Final.task_manager.packages_loading_info.length ≤ 15 := by
  decide

/-- Claim C6: at every reachable state each itemId is in at most one of the
in-flight set and the pending queue.  Refuted on the code: in the C6 trace
the replenishment leaves spare capacity with a non-empty pending queue, and
a repeated user request for the still-pending "u" is then launched by
`load_package_info_immediate` (which checks only the in-flight set), so "u"
ends up in both sets. -/
theorem c6_item_in_both_sets :
    c6Final.task_manager.packages_loading_info.contains "u" = true ∧
    (c6Final.task_manager.pending_package_info_loads.map Prod.fst).contains "u" = true := by
  decide

/-- Claim C7: re-requesting an itemId before its first request completes
yields exactly one launch and one eventual result.  Refuted on the code: in
the C7 trace "u" is requested while pending, duplicated into the in-flight
set, completes once, and its stale queue entry is then drained and launched
a second time — the ghost launch log records two launches of "u". -/
theorem c7_double_launch :
    c7Final.launched.count "u" = 2 ∧ ¬ c7Final.launched.count "u" = 1 := by
  decide

/-- Claim C2 counterexample: submitting a second Install while one is
outstanding is claimed to be a dropped no-op leaving exactly one Install
outstanding; in the code `set_active_task` computes an empty `task_type`
for every mutation kind, skips the dedup check, and pushes the duplicate,
leaving two tasks outstanding. -/
theorem c2_counterexample :
    (c2M.set_active_task c2Second).active_tasks.length = 2 ∧
    ¬ (c2M.set_active_task c2Second).active_tasks.length = 1 := by
  decide

/-- Claim C2 (amended): `set_active_task` deduplicates only the kinds with
a non-empty `task_type` (LoadInstalled, LoadOutdated, Search) — for those a
duplicate submission leaves the manager unchanged; any submission whose
kind is not already outstanding, and in particular every mutation-kind
submission (whose `task_type` is empty), is appended to the outstanding
list. -/
theorem c2_dedup_only_list_and_search (m : AsyncTaskManager) (t : AsyncTask) :
    (AsyncTaskManager.taskType t ≠ "" →
      m.has_task_type (AsyncTaskManager.taskType t) = true → m.set_active_task t = m) ∧
    (m.has_task_type (AsyncTaskManager.taskType t) = false →
      (m.set_active_task t).active_tasks = m.active_tasks ++ [t]) ∧
    (AsyncTaskManager.taskType t = "" →
      (m.set_active_task t).active_tasks = m.active_tasks ++ [t]) := by
  refine ⟨fun h1 h2 => ?_, fun h => ?_, fun h => ?_⟩
  · simp [AsyncTaskManager.set_active_task, h2, bne_iff_ne, h1]
  · simp [AsyncTaskManager.set_active_task, h]
  · simp [AsyncTaskManager.set_active_task, h]

/-- Witness for the amended C2: a duplicate LoadInstalled is dropped, while
a second Install is appended alongside the outstanding first one. -/
theorem c2_dedup_only_list_and_search_witness :
    c2MList.set_active_task (AsyncTask.LoadInstalled [] ["done"]) = c2MList ∧
    (c2M.set_active_task c2Second).active_tasks = c2M.active_tasks ++ [c2Second] :=
  ⟨(c2_dedup_only_list_and_search c2MList (AsyncTask.LoadInstalled [] ["done"])).1
      (by decide) (by decide),
   (c2_dedup_only_list_and_search c2M c2Second).2.2 (by decide)⟩

/-- Claim C4 counterexample: the claim says a singleton task whose log cell
is empty is always kept with no fragment; but an Install task whose success
cell is written completes even with an empty log — `poll` emits its
fragment and removes it. -/
theorem c4_counterexample :
    ((c4Manager.poll 0 obsTrueP obsAllA).1.install_completed = some (true, "install done")) ∧
    ((c4Manager.poll 0 obsTrueP obsAllA).2.active_tasks = []) := by
  decide

/-- Claim C8: `drain_pending_loads count` removes and returns exactly
`min count |pending|` entries from the front of the pending queue in queued
order, leaves the rest in their original relative order (the returned
prefix concatenated with the new queue is the old queue), and touches no
other manager state. -/
theorem c8_drain_fifo (m : AsyncTaskManager) (count : Nat) :
    ((m.drain_pending_loads count).1).length
        = min count m.pending_package_info_loads.length ∧
    (m.drain_pending_loads count).1
        ++ ((m.drain_pending_loads count).2).pending_package_info_loads
        = m.pending_package_info_loads ∧
    ((m.drain_pending_loads count).2).pending_package_info_loads
        = m.pending_package_info_loads.drop
            (min count m.pending_package_info_loads.length) ∧
    ((m.drain_pending_loads count).2).packages_loading_info = m.packages_loading_info ∧
    ((m.drain_pending_loads count).2).active_tasks = m.active_tasks := by
  refine ⟨?_, ?_, rfl, rfl, rfl⟩
  · simp [AsyncTaskManager.drain_pending_loads, List.length_take]
  · simp [AsyncTaskManager.drain_pending_loads, List.take_append_drop]

/-- Claim C10: two Install submissions both become outstanding (mutation
kinds are not deduplicated); when both are observed complete in one `poll`,
both are removed but `TaskResult.install_completed` is a single slot, so
only the later-processed task's (success, message) pair is reported, while
both tasks' log lines are accumulated. -/
theorem c10_single_slot_per_kind (b1 b2 : Bool) (l1 l2 : List String) (m1 m2 : String) :
    (twoInstalls b1 b2 l1 l2 m1 m2).active_tasks.length = 2 ∧
    (((twoInstalls b1 b2 l1 l2 m1 m2).poll 0 obsTrueP obsAllA).1.install_completed
        = some (b2, m2)) ∧
    (((twoInstalls b1 b2 l1 l2 m1 m2).poll 0 obsTrueP obsAllA).1.logs = l1 ++ l2) ∧
    (((twoInstalls b1 b2 l1 l2 m1 m2).poll 0 obsTrueP obsAllA).2.active_tasks = []) := by
  exact ⟨rfl, rfl, rfl, rfl⟩

/-- Claim C3 counterexample: two in-flight enrichment tasks both have
written result cells when `poll` runs; the claim says the returned
`TaskResult` contains a detail entry for each, but `package_info` is a
single `Option` slot: both tasks are completed and removed, yet only "b"'s
detail survives and "a"'s written detail appears nowhere. -/
theorem c3_counterexample :
    ((c3M.poll 0 obsTrueP obsAllA).1.completed_package_info_loads = ["a", "b"]) ∧
    ((c3M.poll 0 obsTrueP obsAllA).1.package_info = some ("b", c3Pb)) ∧
    ((c3M.poll 0 obsTrueP obsAllA).1.package_info ≠ some ("a", c3Pa)) ∧
    ((c3M.poll 0 obsTrueP obsAllA).2.package_info_tasks = []) := by
  decide

/-- Claim C3 (amended): a `poll` removes every enrichment task whose result
cell is written (or which timed out) and records each of their names in
`completed_package_info_loads` in iteration order, but
`TaskResult.package_info` is a single slot that retains only the
last-processed completion's detail; details of earlier completions in the
same poll are overwritten. -/
theorem c3_all_completed_last_detail_wins (n1 n2 : String) (pt : PackageType)
    (p1 p2 : Package) (s1 s2 now : Nat)
    (h1 : now - s1 ≤ 10) (h2 : now - s2 ≤ 10) :
    (((twoEnrichment n1 n2 pt p1 p2 s1 s2).poll now obsTrueP obsAllA).1.completed_package_info_loads
        = [n1, n2]) ∧
    (((twoEnrichment n1 n2 pt p1 p2 s1 s2).poll now obsTrueP obsAllA).1.package_info
        = some (n2, p2)) ∧
    (((twoEnrichment n1 n2 pt p1 p2 s1 s2).poll now obsTrueP obsAllA).2.package_info_tasks
        = []) ∧
    (((twoEnrichment n1 n2 pt p1 p2 s1 s2).poll now obsTrueP obsAllA).2.packages_loading_info
        = []) := by
  have h1' : ¬ (10 < now - s1) := Nat.not_lt.mpr h1
  have h2' : ¬ (10 < now - s2) := Nat.not_lt.mpr h2
  simp [twoEnrichment, AsyncTaskManager.poll, pollPkgInfoAux, pollActiveAux,
        TaskResult.empty, hsRemove, obsTrueP, h1', h2', List.erase_cons]

/-- Witness for the amended C3 at the concrete two-task configuration. -/
theorem c3_all_completed_last_detail_wins_witness :
    (((twoEnrichment "a" "b" PackageType.Formula c3Pa c3Pb 0 0).poll 0 obsTrueP
        obsAllA).1.completed_package_info_loads = ["a", "b"]) ∧
    (((twoEnrichment "a" "b" PackageType.Formula c3Pa c3Pb 0 0).poll 0 obsTrueP
        obsAllA).1.package_info = some ("b", c3Pb)) :=
  ⟨(c3_all_completed_last_detail_wins "a" "b" PackageType.Formula c3Pa c3Pb 0 0 0
      (by decide) (by decide)).1,
   (c3_all_completed_last_detail_wins "a" "b" PackageType.Formula c3Pa c3Pb 0 0 0
      (by decide) (by decide)).2.1⟩

/-- Claim C4 (amended): the log-non-empty completion signal governs only
the list-load and search kinds — for those, an empty log cell means the
task is kept with no fragment, and a lockable non-empty log (with a
lockable payload cell) produces the fragment.  For the mutation kinds the
completion signal is instead the success cell being written: when it holds
`some b` and the log and message cells are lockable, the fragment is
produced even though the log is empty, and when it is unwritten the task is
kept. -/
theorem c4_completion_signals (pkgs : List Package) (logs : List String)
    (b : Bool) (msg : String) (obs : LockObs) (r : TaskResult) :
    (pollSingleton (AsyncTask.LoadInstalled pkgs []) obs r = (r, true)) ∧
    (logs ≠ [] → obs.lock1 = true → obs.lock2 = true →
      pollSingleton (AsyncTask.LoadInstalled pkgs logs) obs r
        = ({ r with installed_packages := some pkgs, logs := r.logs ++ logs }, false)) ∧
    (obs.lock1 = true → obs.lock2 = true → obs.lock3 = true →
      pollSingleton (AsyncTask.Install (some b) logs msg) obs r
        = ({ r with install_completed := some (b, msg), logs := r.logs ++ logs }, false)) ∧
    (pollSingleton (AsyncTask.Install none logs msg) obs r = (r, true)) := by
  refine ⟨?_, fun hl h1 h2 => ?_, fun h1 h2 h3 => ?_, ?_⟩
  · cases h : obs.lock1 <;> simp [pollSingleton, h]
  · have hb : (logs != []) = true := bne_iff_ne.mpr hl
    simp [pollSingleton, h1, h2, hb]
  · simp [pollSingleton, h1, h2, h3]
  · cases h : obs.lock1 <;> simp [pollSingleton, h]

/-- Witness for the amended C4: a completed list load with a log line, a
completed Install with an empty log, an unstarted list load and an
unfinished Install, all at concrete inputs. -/
theorem c4_completion_signals_witness :
    (pollSingleton (AsyncTask.LoadInstalled [] []) LockObs.all TaskResult.empty
        = (TaskResult.empty, true)) ∧
    (pollSingleton (AsyncTask.LoadInstalled [] ["loaded"]) LockObs.all TaskResult.empty
        = ({ TaskResult.empty with installed_packages := some [], logs := ["loaded"] }, false)) ∧
    (pollSingleton (AsyncTask.Install (some true) [] "ok") LockObs.all TaskResult.empty
        = ({ TaskResult.empty with install_completed := some (true, "ok") }, false)) ∧
    (pollSingleton (AsyncTask.Install none [] "ok") LockObs.all TaskResult.empty
        = (TaskResult.empty, true)) :=
  ⟨(c4_completion_signals [] [] true "ok" LockObs.all TaskResult.empty).1,
   (c4_completion_signals [] ["loaded"] true "ok" LockObs.all TaskResult.empty).2.1
      (by decide) rfl rfl,
   (c4_completion_signals [] [] true "ok" LockObs.all TaskResult.empty).2.2.1 rfl rfl rfl,
   (c4_completion_signals [] [] true "ok" LockObs.all TaskResult.empty).2.2.2⟩

/-- Claim C5: an in-flight enrichment task whose result cell is unwritten
is removed by the first poll at which strictly more than 10 seconds have
elapsed since its `started_at`, with a synthesized failure detail (a
package marked `version_load_failed`) included in the result; at or before
exactly 10 seconds the task is kept, nothing is synthesized and the frame's
result is empty — whatever the lock oracle does. -/
theorem c5_timeout_boundary (n : String) (pt : PackageType) (s now : Nat)
    (obsP : Nat → Bool) (obsA : Nat → LockObs) :
    (10 < now - s →
      ((singleEnrichment n pt s).poll now obsP obsA).1.package_info
          = some (n, (Package.new n pt).set_version_load_failed true) ∧
      ((singleEnrichment n pt s).poll now obsP obsA).1.completed_package_info_loads = [n] ∧
      ((singleEnrichment n pt s).poll now obsP obsA).2.packages_loading_info = [] ∧
      ((singleEnrichment n pt s).poll now obsP obsA).2.package_info_tasks = []) ∧
    (now - s ≤ 10 →
      ((singleEnrichment n pt s).poll now obsP obsA).1 = TaskResult.empty ∧
      ((singleEnrichment n pt s).poll now obsP obsA).2 = singleEnrichment n pt s) := by
  constructor
  · intro h
    simp [singleEnrichment, AsyncTaskManager.poll, pollPkgInfoAux, pollActiveAux,
          TaskResult.empty, hsRemove, h]
  · intro h
    have h' : ¬ (10 < now - s) := Nat.not_lt.mpr h
    cases hc : obsP 0 <;>
      simp [singleEnrichment, AsyncTaskManager.poll, pollPkgInfoAux, pollActiveAux,
            TaskResult.empty, hsRemove, h', hc]

/-- Witness for C5: started at time 0, a poll at time 11 synthesizes the
failure and a poll at exactly time 10 keeps the task untouched. -/
theorem c5_timeout_boundary_witness :
    (((singleEnrichment "w1" PackageType.Formula 0).poll 11 obsTrueP obsAllA).1.package_info
        = some ("w1", (Package.new "w1" PackageType.Formula).set_version_load_failed true)) ∧
    (((singleEnrichment "w1" PackageType.Formula 0).poll 10 obsTrueP obsAllA).2
        = singleEnrichment "w1" PackageType.Formula 0) :=
  ⟨((c5_timeout_boundary "w1" PackageType.Formula 0 11 obsTrueP obsAllA).1 (by decide)).1,
   ((c5_timeout_boundary "w1" PackageType.Formula 0 10 obsTrueP obsAllA).2 (by decide)).2⟩

/-- Claim C9 counterexample: the enrichment task's cell was written with a
real result before time 9; the poll at time 9 cannot take the lock and
keeps the task unchanged, but the next poll at time 11 hits the timeout
branch (which runs before any cell read), discards the written result and
synthesizes a failure — the delayed fragment is not identical to the
written one, so a missed frame can corrupt an enrichment result. -/
theorem c9_counterexample :
    c9M1 = c9M0 ∧
    ((c9M1.poll 11 obsTrueP obsAllA).1.package_info
        = some ("z", (Package.new "z" PackageType.Formula).set_version_load_failed true)) ∧
    ((c9M1.poll 11 obsTrueP obsAllA).1.package_info ≠ some ("z", c9Package)) ∧
    ((c9M1.poll 11 obsTrueP obsAllA).2.package_info_tasks = []) := by
  decide

/-- Claim C9 (amended): a poll that keeps a singleton task leaves the
frame's result untouched by that task (and the task itself is re-queued
unchanged), so a missed frame loses nothing for singleton tasks; an
enrichment task with a written cell whose lock is unavailable is likewise
kept with an empty frame result, and a later poll that can read the cell
delivers exactly the written detail — but only while within the 10-second
timeout; past it the written result is replaced by a synthesized failure
(see the counterexample). -/
theorem c9_missed_frame_only_delays :
    (∀ (t : AsyncTask) (obs : LockObs) (r : TaskResult),
      (pollSingleton t obs r).2 = true → (pollSingleton t obs r).1 = r) ∧
    (∀ (n : String) (pt : PackageType) (p : Package) (s now1 : Nat) (obsA2 : Nat → LockObs),
      now1 - s ≤ 10 →
      ((singleEnrichmentW n pt p s).poll now1 obsFalseP obsA2).2
          = singleEnrichmentW n pt p s ∧
      ((singleEnrichmentW n pt p s).poll now1 obsFalseP obsA2).1 = TaskResult.empty) ∧
    (∀ (n : String) (pt : PackageType) (p : Package) (s now2 : Nat) (obsA2 : Nat → LockObs),
      now2 - s ≤ 10 →
      ((singleEnrichmentW n pt p s).poll now2 obsTrueP obsA2).1.package_info
          = some (n, p) ∧
      ((singleEnrichmentW n pt p s).poll now2 obsTrueP obsA2).2.package_info_tasks = []) := by
  refine ⟨?_, ?_, ?_⟩
  · intro t obs r
    cases t <;> simp only [pollSingleton] <;> (repeat' split) <;> simp_all
  · intro n pt p s now1 obsA2 h
    have h' : ¬ (10 < now1 - s) := Nat.not_lt.mpr h
    simp [singleEnrichmentW, AsyncTaskManager.poll, pollPkgInfoAux, pollActiveAux,
          TaskResult.empty, hsRemove, obsFalseP, h']
  · intro n pt p s now2 obsA2 h
    have h' : ¬ (10 < now2 - s) := Nat.not_lt.mpr h
    simp [singleEnrichmentW, AsyncTaskManager.poll, pollPkgInfoAux, pollActiveAux,
          TaskResult.empty, hsRemove, obsTrueP, h']

/-- Witness for the amended C9: a kept Install task changes nothing; the
written "z2" detail survives a locked frame at time 9 and is delivered
verbatim at time 10. -/
theorem c9_missed_frame_only_delays_witness :
    ((pollSingleton (AsyncTask.Install none [] "") LockObs.all TaskResult.empty).1
        = TaskResult.empty) ∧
    (((singleEnrichmentW "z2" PackageType.Cask c9Package 0).poll 9 obsFalseP obsAllA).2
        = singleEnrichmentW "z2" PackageType.Cask c9Package 0) ∧
    (((singleEnrichmentW "z2" PackageType.Cask c9Package 0).poll 10 obsTrueP obsAllA).1.package_info
        = some ("z2", c9Package)) :=
  ⟨c9_missed_frame_only_delays.1 (AsyncTask.Install none [] "") LockObs.all
      TaskResult.empty (by decide),
   (c9_missed_frame_only_delays.2.1 "z2" PackageType.Cask c9Package 0 9 obsAllA
      (by decide)).1,
   (c9_missed_frame_only_delays.2.2 "z2" PackageType.Cask c9Package 0 10 obsAllA
      (by decide)).1⟩

end Brewsty
